import Mathlib

/-!
Shallow embedding of the AINotesApp AI provider layer:
`src/types/AIProvider.ts`, `src/services/ai/AIService.ts` (dispatch facade),
the three vendor adapters (`OpenAIService`, `GeminiService`,
`AnthropicService`) and the caller-side suggestion parsing in
`src/components/ai/WordSuggestions.tsx`.

The HTTP client (axios) is modelled as an oracle `Mock : HttpRequest →
HttpOutcome`; each call records the requests it issues in a trace list, so
"no network call" is `trace = []`.  JavaScript member access inside the
`try` block is modelled by `jsGetField` / `jsIndex`: accessing a property
of `undefined`/`null` throws a TypeError (`Except.error`), accessing a
missing property of an object yields `undefined` (`Option.none`).
-/

/-- JSON values, as produced by the vendor HTTP responses and carried in
request bodies.  Numbers are rationals so that literals such as `0.7` and
`0.95` from the adapter envelopes are exact. -/
inductive Json where
  | jnull : Json
  | jbool : Bool → Json
  | jnum : ℚ → Json
  | jstr : String → Json
  | jarr : List Json → Json
  | jobj : List (String × Json) → Json

/-- First-match key lookup in a JSON object, as JavaScript property reads
behave on plain objects. -/
def jlookup (k : String) : List (String × Json) → Option Json
  | [] => none
  | (k', v) :: rest => if k = k' then some v else jlookup k rest

/-- JavaScript property read `v.k` inside a `try` block.  `none` on the
left models `undefined`.  Reading from `undefined` or `null` throws a
TypeError; reading a key absent from an object (or from a primitive)
yields `undefined`. -/
def jsGetField : Option Json → String → Except String (Option Json)
  | none, k =>
      .error ("TypeError: Cannot read properties of undefined (reading " ++ k ++ ")")
  | some .jnull, k =>
      .error ("TypeError: Cannot read properties of null (reading " ++ k ++ ")")
  | some (.jobj fs), k => .ok (jlookup k fs)
  | some _, _ => .ok none

/-- JavaScript index read `v[i]` inside a `try` block.  Indexing
`undefined`/`null` throws; an array yields its element or `undefined`;
a string yields its character (as a one-character string) or `undefined`;
an object looks the index up as a string key; other primitives yield
`undefined`. -/
def jsIndex : Option Json → Nat → Except String (Option Json)
  | none, i =>
      .error ("TypeError: Cannot read properties of undefined (reading " ++ toString i ++ ")")
  | some .jnull, i =>
      .error ("TypeError: Cannot read properties of null (reading " ++ toString i ++ ")")
  | some (.jarr xs), i => .ok (xs.get? i)
  | some (.jstr s), i => .ok ((s.toList.get? i).map (fun c => Json.jstr (String.mk [c])))
  | some (.jobj fs), i => .ok (jlookup (toString i) fs)
  | some _, _ => .ok none

/-- `AIProvider` record from `src/types/AIProvider.ts`.  The `type` field is
a string at runtime (the `AIProviderType` enum values are the strings
"openai", "gemini", "anthropic"; configs parsed from storage can carry any
string). -/
structure AIProvider where
  type : String
  apiKey : String
  model : String
  isActive : Bool

/-- `AIResponse` from `src/types/AIProvider.ts`: `success` plus optional
`data` and `error` fields.  `data` is `Option Json` because the adapters
assign whatever JavaScript value sits at the extraction path (`none`
models `undefined`, i.e. the field effectively absent). -/
structure AIResponse where
  success : Bool
  data : Option Json
  error : Option String

/-- An outbound HTTP POST issued through axios: url, headers, JSON body. -/
structure HttpRequest where
  url : String
  headers : List (String × String)
  body : Json

/-- A JavaScript value thrown during the request: either an `Error`
instance carrying a `message`, or a non-`Error` value. -/
inductive JsFault where
  | errObj : String → JsFault
  | nonError : JsFault

/-- What the mocked HTTP layer does with a request: resolve with a parsed
2xx JSON body, or throw (network failure, non-2xx status, ...). -/
inductive HttpOutcome where
  | ok : Json → HttpOutcome
  | fail : JsFault → HttpOutcome

/-- A mocked HTTP client. -/
def Mock : Type := HttpRequest → HttpOutcome

/-- The `catch` arm of every adapter:
`error instanceof Error ? error.message : 'Unknown error occurred'`. -/
def jsFaultMessage : JsFault → String
  | .errObj m => m
  | .nonError => "Unknown error occurred"

/-- The three task request shapes exposed by each service. -/
inductive AITask where
  | simplify : String → AITask
  | findSimilarWords : String → String → AITask
  | analyzeHardWords : String → AITask

/-- Prompt template of `simplifyText` (identical in all three services). -/
def simplifyPrompt (text : String) : String :=
  "Please simplify the following text while maintaining its meaning and context. Make it easier to understand without losing important information:\n\n" ++ text

/-- Prompt template of `findSimilarWords` (identical in all three services). -/
def findSimilarPrompt (word context : String) : String :=
  "Find 3-5 simpler alternative words for \"" ++ word ++ "\" that would fit perfectly in this context: \"" ++ context ++ "\". Provide only the words separated by commas, no explanations."

/-- Prompt template of `analyzeHardWords` (identical in all three services);
the braces of the JSON example are literal text. -/
def analyzePrompt (text : String) : String :=
  "Analyze this text and identify words that might be difficult to understand. For each hard word, provide simpler alternatives that fit the context. Format your response as JSON with this structure:\n    \x7b\n      \"hardWords\": [\n        \x7b\n          \"word\": \"original word\",\n          \"alternatives\": [\"simpler word 1\", \"simpler word 2\"],\n          \"context\": \"sentence containing the word\"\n        \x7d\n      ]\n    \x7d\n\n    Text to analyze: " ++ text

/-- Which prompt each service method builds for its task. -/
def taskPrompt : AITask → String
  | .simplify text => simplifyPrompt text
  | .findSimilarWords word context => findSimilarPrompt word context
  | .analyzeHardWords text => analyzePrompt text

/-- `OpenAIService.makeRequest` request construction (part_005 lines 9-23):
POST to the fixed chat-completions URL, bearer-token auth header, body with
`model` (config model or 'gpt-3.5-turbo' when the config model is the empty
string, via JavaScript `||`), one user message, `temperature: 0.7`,
`max_tokens: 1000`. -/
def openAIBuildRequest (baseURL prompt : String) (p : AIProvider) : HttpRequest where
  url := baseURL
  headers := [("Authorization", "Bearer " ++ p.apiKey), ("Content-Type", "application/json")]
  body := .jobj [
    ("model", .jstr (if p.model = "" then "gpt-3.5-turbo" else p.model)),
    ("messages", .jarr [.jobj [("role", .jstr "user"), ("content", .jstr prompt)]]),
    ("temperature", .jnum (7/10)),
    ("max_tokens", .jnum 1000)]

/-- `response.data.choices[0].message.content` (part_005 line 27). -/
def openAIExtract (body : Json) : Except String (Option Json) := do
  let v ← jsGetField (some body) "choices"
  let v ← jsIndex v 0
  let v ← jsGetField v "message"
  jsGetField v "content"

/-- `GeminiService.makeRequest` request construction (AIService.ts blob
lines 52-70): POST to `<base>/<model>:generateContent?key=<apiKey>` where
the model is the config model or 'gemini-pro' when empty, body with one
`contents` entry of one part and the fixed `generationConfig`. -/
def geminiBuildRequest (baseURL prompt : String) (p : AIProvider) : HttpRequest where
  url := baseURL ++ "/" ++ (if p.model = "" then "gemini-pro" else p.model)
    ++ ":generateContent?key=" ++ p.apiKey
  headers := [("Content-Type", "application/json")]
  body := .jobj [
    ("contents", .jarr [.jobj [("parts", .jarr [.jobj [("text", .jstr prompt)]])]]),
    ("generationConfig", .jobj [
      ("temperature", .jnum (7/10)),
      ("topK", .jnum 40),
      ("topP", .jnum (95/100)),
      ("maxOutputTokens", .jnum 1000)])]

/-- `response.data.candidates[0].content.parts[0].text`. -/
def geminiExtract (body : Json) : Except String (Option Json) := do
  let v ← jsGetField (some body) "candidates"
  let v ← jsIndex v 0
  let v ← jsGetField v "content"
  let v ← jsGetField v "parts"
  let v ← jsIndex v 0
  jsGetField v "text"

/-- `AnthropicService.makeRequest` request construction (AnthropicService.ts
lines 9-23): POST to the fixed messages URL, `x-api-key` and
`anthropic-version: 2023-06-01` headers, body with `model` (config model or
'claude-3-sonnet-20240229' when empty), `max_tokens: 1000`, one user
message. -/
def anthropicBuildRequest (baseURL prompt : String) (p : AIProvider) : HttpRequest where
  url := baseURL
  headers := [("x-api-key", p.apiKey), ("Content-Type", "application/json"),
    ("anthropic-version", "2023-06-01")]
  body := .jobj [
    ("model", .jstr (if p.model = "" then "claude-3-sonnet-20240229" else p.model)),
    ("max_tokens", .jnum 1000),
    ("messages", .jarr [.jobj [("role", .jstr "user"), ("content", .jstr prompt)]])]

/-- `response.data.content[0].text` (AnthropicService.ts line 27). -/
def anthropicExtract (body : Json) : Except String (Option Json) := do
  let v ← jsGetField (some body) "content"
  let v ← jsIndex v 0
  jsGetField v "text"

/-- The shared `makeRequest` shape of all three adapters: issue exactly one
POST; on a thrown fault return `{success:false, error:<catch message>}`;
on a 2xx body run the extraction inside the same `try`, so an extraction
TypeError also lands in the catch arm; otherwise return
`{success:true, data:<value at the path>}`.  The second component is the
trace of issued requests. -/
def runRequest (req : HttpRequest) (extract : Json → Except String (Option Json))
    (http : Mock) : AIResponse × List HttpRequest :=
  (match http req with
   | .fail f => ⟨false, none, some (jsFaultMessage f)⟩
   | .ok body =>
     match extract body with
     | .error m => ⟨false, none, some m⟩
     | .ok v => ⟨true, v, none⟩,
   [req])

/-- The three vendor tags registered in the `AIService` constructor. -/
inductive Vendor where
  | openai : Vendor
  | gemini : Vendor
  | anthropic : Vendor

/-- The mutable instance fields of the singleton services: the facade's
`providers` map entries and each adapter's `baseURL` field.  The source
assigns them once at construction and never writes them afterwards. -/
structure ServiceState where
  providerEntries : List (String × Vendor)
  openAIBaseURL : String
  geminiBaseURL : String
  anthropicBaseURL : String

/-- Map lookup as the facade's `this.providers.get(provider.type)`. -/
def mapGet {α : Type} (k : String) : List (String × α) → Option α
  | [] => none
  | (k', v) :: rest => if k = k' then some v else mapGet k rest

/-- The state established by the constructors: the three map entries from
`AIService`'s constructor and the three `baseURL` constants. -/
def initState : ServiceState where
  providerEntries := [("openai", .openai), ("gemini", .gemini), ("anthropic", .anthropic)]
  openAIBaseURL := "https://api.openai.com/v1/chat/completions"
  geminiBaseURL := "https://generativelanguage.googleapis.com/v1beta/models"
  anthropicBaseURL := "https://api.anthropic.com/v1/messages"

/-- The request each adapter builds, reading its `baseURL` field from the
state. -/
def requestFor (s : ServiceState) : Vendor → String → AIProvider → HttpRequest
  | .openai => openAIBuildRequest s.openAIBaseURL
  | .gemini => geminiBuildRequest s.geminiBaseURL
  | .anthropic => anthropicBuildRequest s.anthropicBaseURL

/-- The response-path extraction each adapter performs. -/
def extractFor : Vendor → Json → Except String (Option Json)
  | .openai => openAIExtract
  | .gemini => geminiExtract
  | .anthropic => anthropicExtract

/-- The selected adapter's `makeRequest`. -/
def vendorMakeRequest (s : ServiceState) (v : Vendor) (prompt : String) (p : AIProvider)
    (http : Mock) : AIResponse × List HttpRequest :=
  runRequest (requestFor s v prompt p) (extractFor v) http

/-- The dispatch facade (`AIService.simplifyText` / `findSimilarWords` /
`analyzeHardWords`, lines 15-40): look the vendor tag up in the providers
map; if absent return `{success:false, error:'Provider not supported'}`
with no request issued; otherwise delegate to the adapter method for the
task and return its response and the unchanged state (no method writes any
instance field). -/
def dispatchSt (s : ServiceState) (task : AITask) (p : AIProvider) (http : Mock) :
    (AIResponse × List HttpRequest) × ServiceState :=
  (match mapGet p.type s.providerEntries with
   | none => (⟨false, none, some "Provider not supported"⟩, [])
   | some v => vendorMakeRequest s v (taskPrompt task) p http, s)

/-- A dispatch call on the exported singleton instances. -/
def dispatch (task : AITask) (p : AIProvider) (http : Mock) : AIResponse × List HttpRequest :=
  (dispatchSt initState task p http).1

/-- `AIService.simplifyText` on the singletons. -/
def AIService.simplifyText (text : String) (p : AIProvider) (http : Mock) :
    AIResponse × List HttpRequest :=
  dispatch (.simplify text) p http

/-- `AIService.findSimilarWords` on the singletons. -/
def AIService.findSimilarWords (word context : String) (p : AIProvider) (http : Mock) :
    AIResponse × List HttpRequest :=
  dispatch (.findSimilarWords word context) p http

/-- `AIService.analyzeHardWords` on the singletons. -/
def AIService.analyzeHardWords (text : String) (p : AIProvider) (http : Mock) :
    AIResponse × List HttpRequest :=
  dispatch (.analyzeHardWords text) p http

/-- JavaScript `String.prototype.split(',')`: cut at every comma, keeping
empty pieces; the empty string yields `[""]`. -/
def jsSplitCommaAux : List Char → List Char → List String
  | [], acc => [String.mk acc.reverse]
  | c :: rest, acc =>
    if c = ',' then String.mk acc.reverse :: jsSplitCommaAux rest []
    else jsSplitCommaAux rest (c :: acc)

/-- `data.split(',')`. -/
def jsSplitComma (s : String) : List String := jsSplitCommaAux s.toList []

/-- The whitespace characters relevant to the replies this layer handles
(JavaScript `trim` also strips rarer Unicode space characters). -/
def jsIsWhitespace (c : Char) : Bool := c = ' ' || c = '\t' || c = '\n' || c = '\r'

/-- JavaScript `String.prototype.trim`: strip whitespace from both ends. -/
def jsTrim (s : String) : String :=
  String.mk (((s.toList.dropWhile jsIsWhitespace).reverse.dropWhile jsIsWhitespace).reverse)

/-- Caller-side parsing of a `findSimilarWords` success reply
(`WordSuggestions.tsx` line 47):
`response.data.split(',').map(w => w.trim()).filter(w => w)` — split on
commas, trim each piece, keep the truthy (non-empty) pieces. -/
def parseSuggestions (data : String) : List String :=
  ((jsSplitComma data).map jsTrim).filter (fun w => !(w = ""))

/-- A mock HTTP layer whose every request fails with a network error. -/
def mockDown : Mock := fun _ => .fail (.errObj "Network Error")

/-- The valid success envelope of each vendor carrying reply text `t`, at
the path the adapters extract: `choices[0].message.content` (OpenAI),
`candidates[0].content.parts[0].text` (Gemini), `content[0].text`
(Anthropic). -/
def envelopeFor (vendor t : String) : Json :=
  if vendor = "openai" then
    .jobj [("choices", .jarr [.jobj [("message",
      .jobj [("role", .jstr "assistant"), ("content", .jstr t)])]])]
  else if vendor = "gemini" then
    .jobj [("candidates", .jarr [.jobj [("content",
      .jobj [("parts", .jarr [.jobj [("text", .jstr t)]])])]])]
  else
    .jobj [("content", .jarr [.jobj [("type", .jstr "text"), ("text", .jstr t)]])]

/-- The `model` field of a request's JSON body, when the body is an object. -/
def bodyModel (req : HttpRequest) : Option Json :=
  match req.body with
  | .jobj fs => jlookup "model" fs
  | _ => none

/-- `C2`: dispatching any task with a vendor tag that has no registered
adapter returns exactly `{success:false, error:"Provider not supported"}`
and issues zero network calls (empty request trace). -/
theorem C2_unsupported_vendor (task : AITask) (cfg : AIProvider) (http : Mock)
    (hv : ¬(cfg.type = "openai" ∨ cfg.type = "gemini" ∨ cfg.type = "anthropic")) :
    dispatch task cfg http = (⟨false, none, some "Provider not supported"⟩, []) := by
  push_neg at hv
  obtain ⟨h1, h2, h3⟩ := hv
  simp [dispatch, dispatchSt, mapGet, initState, h1, h2, h3]

/-- Witness for `C2_unsupported_vendor` at the unregistered tag "mistral". -/
theorem C2_unsupported_vendor_witness :
    dispatch (.simplify "hello") ⟨"mistral", "k", "m", true⟩ mockDown
      = (⟨false, none, some "Provider not supported"⟩, []) :=
  C2_unsupported_vendor (.simplify "hello") ⟨"mistral", "k", "m", true⟩ mockDown
    (by simp)

/-- `C4`: for every task kind and every registered vendor, a 2xx response
whose body is the vendor's valid envelope with text `t` yields
`{success:true, data:t}`, `t` read from the vendor-specific path. -/
theorem C4_extraction (task : AITask) (cfg : AIProvider) (t : String) (http : Mock)
    (hv : cfg.type = "openai" ∨ cfg.type = "gemini" ∨ cfg.type = "anthropic")
    (hm : http = fun _ => .ok (envelopeFor cfg.type t)) :
    (dispatch task cfg http).1 = ⟨true, some (.jstr t), none⟩ := by
  subst hm
  rcases hv with h | h | h <;>
    simp only [dispatch, dispatchSt, h] <;> cases task <;> rfl

/-- Witness for `C4_extraction`: Anthropic, `analyzeHardWords`. -/
theorem C4_extraction_witness :
    (dispatch (.analyzeHardWords "dense prose") ⟨"anthropic", "k", "m", true⟩
        (fun _ => .ok (envelopeFor "anthropic" "the reply"))).1
      = ⟨true, some (.jstr "the reply"), none⟩ :=
  C4_extraction (.analyzeHardWords "dense prose") ⟨"anthropic", "k", "m", true⟩
    "the reply" _ (Or.inr (Or.inr rfl)) rfl

/-- `C6`: the caller-side parsing of a `findSimilarWords` success reply
splits on commas, trims whitespace, drops empty pieces; in particular
`"calm, quiet, peaceful"` parses to `["calm","quiet","peaceful"]` (second
conjunct: trimming and empty-dropping on a reply with a stray comma and
padding). -/
theorem C6_parse_suggestions :
    parseSuggestions "calm, quiet, peaceful" = ["calm", "quiet", "peaceful"]
      ∧ parseSuggestions " calm ,, quiet " = ["calm", "quiet"] :=
  ⟨rfl, rfl⟩

/-- `C8`: dispatch is stateless: a run after any earlier call returns
exactly what it returns from the constructor-initialized state, and leaves
the service fields (providers map entries, base URLs) unchanged — so
repeating an identical request against an identical mock yields an
identical response. -/
theorem C8_stateless (task task' : AITask) (cfg cfg' : AIProvider) (http http' : Mock) :
    (dispatchSt (dispatchSt initState task' cfg' http').2 task cfg http).1
        = (dispatchSt initState task cfg http).1
      ∧ (dispatchSt (dispatchSt initState task' cfg' http').2 task cfg http).2
        = initState :=
  ⟨rfl, rfl⟩

/-- `C1` counterexample: with an empty `apiKey` and a registered vendor,
the dispatch call does NOT fail fast with a configuration error: it issues
one outbound network request (trace length 1) and returns the transport
error of that request. -/
theorem C1_counterexample :
    (AIService.simplifyText "hello" ⟨"openai", "", "gpt-4", true⟩ mockDown).2.length = 1
      ∧ (AIService.simplifyText "hello" ⟨"openai", "", "gpt-4", true⟩ mockDown).1.error
        = some "Network Error" :=
  ⟨rfl, rfl⟩

/-- `C1` amended: the dispatch layer performs no `apiKey` validation — a
dispatch call whose config has an empty `apiKey` and a registered vendor
issues exactly one outbound network request, and that request carries the
empty credential (empty bearer token / `key=` query / `x-api-key`). -/
theorem C1_amended (task : AITask) (cfg : AIProvider) (http : Mock)
    (hk : cfg.apiKey = "") :
    (cfg.type = "openai" → (dispatch task cfg http).2.length = 1
      ∧ (dispatch task cfg http).2.map HttpRequest.headers
        = [[("Authorization", "Bearer "), ("Content-Type", "application/json")]])
    ∧ (cfg.type = "gemini" → (dispatch task cfg http).2.length = 1
      ∧ (dispatch task cfg http).2.map HttpRequest.url
        = ["https://generativelanguage.googleapis.com/v1beta/models" ++ "/"
            ++ (if cfg.model = "" then "gemini-pro" else cfg.model)
            ++ ":generateContent?key="])
    ∧ (cfg.type = "anthropic" → (dispatch task cfg http).2.length = 1
      ∧ (dispatch task cfg http).2.map HttpRequest.headers
        = [[("x-api-key", ""), ("Content-Type", "application/json"),
            ("anthropic-version", "2023-06-01")]]) := by
  obtain ⟨ty, key, mdl, act⟩ := cfg
  have hk' : key = "" := hk
  subst hk'
  refine ⟨fun h => ?_, fun h => ?_, fun h => ?_⟩
  · have h' : ty = "openai" := h
    subst h'
    exact ⟨rfl, rfl⟩
  · have h' : ty = "gemini" := h
    subst h'
    exact ⟨rfl, by simp [dispatch, dispatchSt, mapGet, initState, vendorMakeRequest,
      runRequest, requestFor, geminiBuildRequest, String.append_empty]⟩
  · have h' : ty = "anthropic" := h
    subst h'
    exact ⟨rfl, rfl⟩

/-- Witness for `C1_amended`: Gemini config with empty key. -/
theorem C1_amended_witness :
    (dispatch (.simplify "hi") ⟨"gemini", "", "", true⟩ mockDown).2.length = 1
      ∧ (dispatch (.simplify "hi") ⟨"gemini", "", "", true⟩ mockDown).2.map HttpRequest.url
        = ["https://generativelanguage.googleapis.com/v1beta/models" ++ "/"
            ++ (if ("" : String) = "" then "gemini-pro" else "")
            ++ ":generateContent?key="] :=
  (C1_amended (.simplify "hi") ⟨"gemini", "", "", true⟩ mockDown rfl).2.1 rfl

/-- A mock whose request throws an `Error` with an empty message. -/
def mockEmptyMessage : Mock := fun _ => .fail (.errObj "")

/-- `C3` counterexample: a fault thrown as `Error('')` is caught and
returned as `{success:false, error:""}` — the error string is empty, so
the "non-empty string" part of the claim fails (the no-unhandled-fault
part holds). -/
theorem C3_counterexample :
    (AIService.findSimilarWords "big" "ctx" ⟨"anthropic", "k", "m", true⟩
        mockEmptyMessage).1.success = false
      ∧ (AIService.findSimilarWords "big" "ctx" ⟨"anthropic", "k", "m", true⟩
          mockEmptyMessage).1.error = some "" :=
  ⟨rfl, rfl⟩

/-- `C3` amended: for every registered vendor and task kind, a thrown
fault during the request is returned as
`{success:false, error:<catch message>, data:undefined}` — the message is
the thrown `Error`'s own message (hence non-empty whenever that message
is, but empty for `Error('')`), or 'Unknown error occurred' for a
non-`Error` value; the fault never propagates to the caller. -/
theorem C3_amended (task : AITask) (cfg : AIProvider) (fault : JsFault)
    (hv : cfg.type = "openai" ∨ cfg.type = "gemini" ∨ cfg.type = "anthropic") :
    (dispatch task cfg (fun _ => .fail fault)).1.success = false
      ∧ (dispatch task cfg (fun _ => .fail fault)).1.error = some (jsFaultMessage fault)
      ∧ (dispatch task cfg (fun _ => .fail fault)).1.data = none := by
  rcases hv with h | h | h <;> simp only [dispatch, dispatchSt, h] <;>
    exact ⟨rfl, rfl, rfl⟩

/-- Witness for `C3_amended`: OpenAI, non-`Error` fault. -/
theorem C3_amended_witness :
    (dispatch (.analyzeHardWords "t") ⟨"openai", "k", "m", true⟩
        (fun _ => .fail .nonError)).1.success = false
      ∧ (dispatch (.analyzeHardWords "t") ⟨"openai", "k", "m", true⟩
          (fun _ => .fail .nonError)).1.error = some "Unknown error occurred"
      ∧ (dispatch (.analyzeHardWords "t") ⟨"openai", "k", "m", true⟩
          (fun _ => .fail .nonError)).1.data = none :=
  C3_amended (.analyzeHardWords "t") ⟨"openai", "k", "m", true⟩ .nonError
    (Or.inl rfl)

/-- `C5` counterexample: with config model `""`, the OpenAI adapter's
outbound body carries `model: "gpt-3.5-turbo"`, not the Provider Config's
model (the empty string) — so the body does not match the claimed envelope
whose model field is the config's model. -/
theorem C5_counterexample :
    (dispatch (.simplify "hi") ⟨"openai", "k", "", true⟩ mockDown).2.map bodyModel
      = [some (.jstr "gpt-3.5-turbo")]
    ∧ ("gpt-3.5-turbo" : String) ≠ "" :=
  ⟨rfl, by decide⟩

/-- `C5` amended: each adapter's single outbound request matches the fixed
vendor envelope exactly — headers, URL, and body as claimed — with the
model field equal to the Provider Config's model when that is non-empty
and the vendor default ('gpt-3.5-turbo' / 'gemini-pro' /
'claude-3-sonnet-20240229') when it is the empty string. -/
theorem C5_amended (task : AITask) (cfg : AIProvider) (http : Mock) :
    (cfg.type = "openai" → (dispatch task cfg http).2
      = [{ url := "https://api.openai.com/v1/chat/completions",
           headers := [("Authorization", "Bearer " ++ cfg.apiKey),
             ("Content-Type", "application/json")],
           body := .jobj [
             ("model", .jstr (if cfg.model = "" then "gpt-3.5-turbo" else cfg.model)),
             ("messages", .jarr [.jobj [("role", .jstr "user"),
               ("content", .jstr (taskPrompt task))]]),
             ("temperature", .jnum (7/10)),
             ("max_tokens", .jnum 1000)] }])
    ∧ (cfg.type = "gemini" → (dispatch task cfg http).2
      = [{ url := "https://generativelanguage.googleapis.com/v1beta/models" ++ "/"
             ++ (if cfg.model = "" then "gemini-pro" else cfg.model)
             ++ ":generateContent?key=" ++ cfg.apiKey,
           headers := [("Content-Type", "application/json")],
           body := .jobj [
             ("contents", .jarr [.jobj [("parts",
               .jarr [.jobj [("text", .jstr (taskPrompt task))]])]]),
             ("generationConfig", .jobj [
               ("temperature", .jnum (7/10)),
               ("topK", .jnum 40),
               ("topP", .jnum (95/100)),
               ("maxOutputTokens", .jnum 1000)])] }])
    ∧ (cfg.type = "anthropic" → (dispatch task cfg http).2
      = [{ url := "https://api.anthropic.com/v1/messages",
           headers := [("x-api-key", cfg.apiKey), ("Content-Type", "application/json"),
             ("anthropic-version", "2023-06-01")],
           body := .jobj [
             ("model", .jstr (if cfg.model = "" then "claude-3-sonnet-20240229" else cfg.model)),
             ("max_tokens", .jnum 1000),
             ("messages", .jarr [.jobj [("role", .jstr "user"),
               ("content", .jstr (taskPrompt task))]])] }]) := by
  obtain ⟨ty, key, mdl, act⟩ := cfg
  refine ⟨fun h => ?_, fun h => ?_, fun h => ?_⟩
  · have h' : ty = "openai" := h
    subst h'
    rfl
  · have h' : ty = "gemini" := h
    subst h'
    rfl
  · have h' : ty = "anthropic" := h
    subst h'
    rfl

/-- Witness for `C5_amended`: Anthropic, `findSimilarWords`. -/
theorem C5_amended_witness :
    (dispatch (.findSimilarWords "calm" "a calm day") ⟨"anthropic", "sk", "claude-3-opus", true⟩
        mockDown).2
      = [{ url := "https://api.anthropic.com/v1/messages",
           headers := [("x-api-key", "sk"), ("Content-Type", "application/json"),
             ("anthropic-version", "2023-06-01")],
           body := .jobj [
             ("model", .jstr (if ("claude-3-opus" : String) = "" then "claude-3-sonnet-20240229" else "claude-3-opus")),
             ("max_tokens", .jnum 1000),
             ("messages", .jarr [.jobj [("role", .jstr "user"),
               ("content", .jstr (taskPrompt (.findSimilarWords "calm" "a calm day")))]])] }] :=
  (C5_amended (.findSimilarWords "calm" "a calm day")
    ⟨"anthropic", "sk", "claude-3-opus", true⟩ mockDown).2.2 rfl

/-- A 2xx OpenAI-shaped body whose `choices[0].message` object lacks the
final `content` field. -/
def mockNoLeaf : Mock := fun _ =>
  .ok (.jobj [("choices", .jarr [.jobj [("message",
    .jobj [("role", .jstr "assistant")])]])])

/-- `C7` counterexample: a 2xx body containing `choices[0].message` without
`content` makes the OpenAI adapter return `success:true` with `data`
undefined — so `success = true` does not imply the data field is present. -/
theorem C7_counterexample :
    (AIService.simplifyText "hi" ⟨"openai", "k", "m", true⟩ mockNoLeaf).1.success = true
      ∧ (AIService.simplifyText "hi" ⟨"openai", "k", "m", true⟩ mockNoLeaf).1.data = none :=
  ⟨rfl, rfl⟩

/-- `C7` amended: every `TaskResponse` of the facade or an adapter has
`error` present when `success` is false; when `success` is true, `error`
is absent and `data` is exactly the value the adapter extracted from the
2xx body at the vendor path — present whenever the leaf field exists, but
undefined when the body's final leaf field is missing. -/
theorem C7_amended (task : AITask) (cfg : AIProvider) (http : Mock) :
    ((dispatch task cfg http).1.success = false
      → (dispatch task cfg http).1.error.isSome = true)
    ∧ ((dispatch task cfg http).1.success = true
      → (dispatch task cfg http).1.error = none
        ∧ ∃ v body, mapGet cfg.type initState.providerEntries = some v
            ∧ http (requestFor initState v (taskPrompt task) cfg) = .ok body
            ∧ extractFor v body = .ok (dispatch task cfg http).1.data) := by
  unfold dispatch dispatchSt
  rcases hmap : mapGet cfg.type initState.providerEntries with _ | v
  · simp only [hmap]
    exact ⟨fun _ => rfl, fun hs => by cases hs⟩
  · simp only [hmap, vendorMakeRequest, runRequest]
    rcases hreq : http (requestFor initState v (taskPrompt task) cfg) with body | f
    · simp only [hreq]
      rcases hex : extractFor v body with m | val
      · simp only [hex]
        exact ⟨fun _ => rfl, fun hs => by cases hs⟩
      · simp only [hex]
        exact ⟨(fun hs => by cases hs), fun _ => ⟨trivial, ⟨v, body, rfl, hreq, hex⟩⟩⟩
    · simp only [hreq]
      exact ⟨fun _ => rfl, fun hs => by cases hs⟩

/-- Witness for `C7_amended`: failed call has an error string present. -/
theorem C7_amended_witness :
    (dispatch (.simplify "x") ⟨"openai", "k", "m", true⟩ mockDown).1.error.isSome = true :=
  (C7_amended (.simplify "x") ⟨"openai", "k", "m", true⟩ mockDown).1 rfl

/-- The response of a dispatch call against a mock that resolves every
request with the 2xx JSON body `body`. -/
def respFor (task : AITask) (cfg : AIProvider) (body : Json) : AIResponse :=
  (dispatch task cfg (fun _ => .ok body)).1

/-- A 2xx body that is an empty JSON object: the expected top-level array
(`choices` / `candidates` / `content`) is missing entirely. -/
def emptyObjBody : Json := .jobj []

/-- A 2xx body whose expected top-level array is present but empty. -/
def emptyArrayBody : Vendor → Json
  | .openai => .jobj [("choices", .jarr [])]
  | .gemini => .jobj [("candidates", .jarr [])]
  | .anthropic => .jobj [("content", .jarr [])]

/-- A 2xx body containing the full vendor path except the final leaf text
field. -/
def leaflessBody : Vendor → Json
  | .openai => .jobj [("choices", .jarr [.jobj [("message", .jobj [])]])]
  | .gemini => .jobj [("candidates", .jarr [.jobj [("content",
      .jobj [("parts", .jarr [.jobj []])])]])]
  | .anthropic => .jobj [("content", .jarr [.jobj []])]

/-- A 2xx Gemini-shaped body whose `parts[0]` object has no `text` field. -/
def mockGeminiNoText : Mock := fun _ =>
  .ok (.jobj [("candidates", .jarr [.jobj [("content",
    .jobj [("parts", .jarr [.jobj [("inlineData", .jstr "blob")]])])]])])

/-- `C9` counterexample: a 2xx Gemini body that lacks the expected
`...parts[0].text` leaf yields `{success:true}` (with undefined data), not
`{success:false, error:<message>}` as the claim requires for every body
lacking the nested text path. -/
theorem C9_counterexample :
    (AIService.findSimilarWords "calm" "ctx" ⟨"gemini", "k", "m", true⟩
        mockGeminiNoText).1.success = true
      ∧ (AIService.findSimilarWords "calm" "ctx" ⟨"gemini", "k", "m", true⟩
          mockGeminiNoText).1.error = none :=
  ⟨rfl, rfl⟩

/-- `C9` amended: for every task kind and registered vendor, a 2xx body
missing an intermediate step of the text path (missing top-level array, or
an empty array) yields `{success:false, error:<message>}` because the
guarded extraction throws; but a body containing the full path except the
final leaf field yields `{success:true}` with `data` undefined. -/
theorem C9_amended (task : AITask) (cfg : AIProvider) :
    (cfg.type = "openai" →
      (respFor task cfg emptyObjBody).success = false
      ∧ (respFor task cfg emptyObjBody).error.isSome = true
      ∧ (respFor task cfg (emptyArrayBody .openai)).success = false
      ∧ (respFor task cfg (emptyArrayBody .openai)).error.isSome = true
      ∧ (respFor task cfg (leaflessBody .openai)).success = true
      ∧ (respFor task cfg (leaflessBody .openai)).data = none)
    ∧ (cfg.type = "gemini" →
      (respFor task cfg emptyObjBody).success = false
      ∧ (respFor task cfg emptyObjBody).error.isSome = true
      ∧ (respFor task cfg (emptyArrayBody .gemini)).success = false
      ∧ (respFor task cfg (emptyArrayBody .gemini)).error.isSome = true
      ∧ (respFor task cfg (leaflessBody .gemini)).success = true
      ∧ (respFor task cfg (leaflessBody .gemini)).data = none)
    ∧ (cfg.type = "anthropic" →
      (respFor task cfg emptyObjBody).success = false
      ∧ (respFor task cfg emptyObjBody).error.isSome = true
      ∧ (respFor task cfg (emptyArrayBody .anthropic)).success = false
      ∧ (respFor task cfg (emptyArrayBody .anthropic)).error.isSome = true
      ∧ (respFor task cfg (leaflessBody .anthropic)).success = true
      ∧ (respFor task cfg (leaflessBody .anthropic)).data = none) := by
  obtain ⟨ty, key, mdl, act⟩ := cfg
  refine ⟨fun h => ?_, fun h => ?_, fun h => ?_⟩
  · have h' : ty = "openai" := h
    subst h'
    exact ⟨rfl, rfl, rfl, rfl, rfl, rfl⟩
  · have h' : ty = "gemini" := h
    subst h'
    exact ⟨rfl, rfl, rfl, rfl, rfl, rfl⟩
  · have h' : ty = "anthropic" := h
    subst h'
    exact ⟨rfl, rfl, rfl, rfl, rfl, rfl⟩

/-- Witness for `C9_amended`: OpenAI with `analyzeHardWords`. -/
theorem C9_amended_witness :
    (respFor (.analyzeHardWords "t") ⟨"openai", "k", "m", true⟩ emptyObjBody).success = false
      ∧ (respFor (.analyzeHardWords "t") ⟨"openai", "k", "m", true⟩ emptyObjBody).error.isSome = true
      ∧ (respFor (.analyzeHardWords "t") ⟨"openai", "k", "m", true⟩ (emptyArrayBody .openai)).success = false
      ∧ (respFor (.analyzeHardWords "t") ⟨"openai", "k", "m", true⟩ (emptyArrayBody .openai)).error.isSome = true
      ∧ (respFor (.analyzeHardWords "t") ⟨"openai", "k", "m", true⟩ (leaflessBody .openai)).success = true
      ∧ (respFor (.analyzeHardWords "t") ⟨"openai", "k", "m", true⟩ (leaflessBody .openai)).data = none :=
  (C9_amended (.analyzeHardWords "t") ⟨"openai", "k", "m", true⟩).1 rfl

/-- `C10`: when the Provider Config's model is the empty string each
adapter substitutes its fixed default model in the outbound request:
`gpt-3.5-turbo` in the OpenAI body, `gemini-pro` in the Gemini URL,
`claude-3-sonnet-20240229` in the Anthropic body. -/
theorem C10_default_model (task : AITask) (cfg : AIProvider) (http : Mock)
    (hm : cfg.model = "") :
    (cfg.type = "openai" → (dispatch task cfg http).2.map bodyModel
      = [some (.jstr "gpt-3.5-turbo")])
    ∧ (cfg.type = "gemini" → (dispatch task cfg http).2.map HttpRequest.url
      = ["https://generativelanguage.googleapis.com/v1beta/models/gemini-pro:generateContent?key="
          ++ cfg.apiKey])
    ∧ (cfg.type = "anthropic" → (dispatch task cfg http).2.map bodyModel
      = [some (.jstr "claude-3-sonnet-20240229")]) := by
  obtain ⟨ty, key, mdl, act⟩ := cfg
  have hm' : mdl = "" := hm
  subst hm'
  refine ⟨fun h => ?_, fun h => ?_, fun h => ?_⟩
  · have h' : ty = "openai" := h
    subst h'
    rfl
  · have h' : ty = "gemini" := h
    subst h'
    rfl
  · have h' : ty = "anthropic" := h
    subst h'
    rfl

/-- Witness for `C10_default_model`: Gemini URL with default model. -/
theorem C10_default_model_witness :
    (dispatch (.simplify "hi") ⟨"gemini", "sk", "", true⟩ mockDown).2.map HttpRequest.url
      = ["https://generativelanguage.googleapis.com/v1beta/models/gemini-pro:generateContent?key="
          ++ "sk"] :=
  (C10_default_model (.simplify "hi") ⟨"gemini", "sk", "", true⟩ mockDown rfl).2.1 rfl
